import Mathlib

/-!
Shallow embedding of the transaction-consumer ingestion pipeline.

Sources embedded:
- internal/domain/entities/transaction.go   (Transaction, IsValid)
- internal/deliveries transaction handler   (KafkaTransactionMessage,
  parseTimestamp, kafkaMessageToEntity)
- internal/usecases/transaction_usecase.go  (ProcessTransaction)
- postgres transaction repository           (TransactionModel, entityToModel,
  Create, Exists)
- internal/infrastructures/kafka/consumer/consumer.go (Consume loop)

Modelling conventions:
- Go float64 values are modelled as rationals; Go int as Int; Go strings as
  String; Go nil-able pointers as Option.
- time.Time values are modelled by the component tuple handed to time.Date
  (normalisation of out-of-range components is not modelled; no claim
  depends on it). The current wall clock is an explicit parameter.
- A failed Go type assertion is a run-time panic; panicking computations
  are modelled by a distinguished result (TsResult.panicked / Option.none).
- The storage collaborator is modelled as an in-memory row list plus
  scripted fault injection for the existence check and the create call,
  mirroring how the use case observes the repository interface.
-/

namespace TxConsumer

/-- Log levels of the diagnostics collaborator (pkg/logger). -/
inductive LogLevel where
  | debug
  | info
  | warn
  | err
deriving DecidableEq, Repr

/-- One emitted diagnostic event: a level and the constant message string. -/
structure LogEvent where
  level : LogLevel
  msg : String
deriving DecidableEq, Repr

/-- Component view of a Go time.Time as produced by time.Date(...) in UTC. -/
structure GoTime where
  year : Int
  month : Int
  day : Int
  hour : Int
  minute : Int
  second : Int
  nanosecond : Int
deriving DecidableEq, Repr

/-- Go int(x) conversion of a float64, truncation toward zero
(Int.tdiv truncates toward zero and the denominator is positive). -/
def goTruncate (q : ℚ) : Int :=
  Int.tdiv q.num (q.den : Int)

/-- entities/transaction.go: transaction type constants. -/
def TransactionTypeTopup : String := "TOPUP"

def TransactionTypePayment : String := "PAYMENT"

def TransactionTypeRefund : String := "REFUND"

def TransactionTypeTransfer : String := "TRANSFER"

/-- entities/transaction.go: transaction status constants. -/
def TransactionStatusPending : String := "PENDING"

def TransactionStatusSuccess : String := "SUCCESS"

def TransactionStatusFailed : String := "FAILED"

def TransactionStatusCancelled : String := "CANCELLED"

/-- entities/transaction.go: the domain record (struct Transaction). -/
structure Transaction where
  ID : String
  UserID : Int
  AccountID : String
  TransactionID : String
  TransactionType : String
  TransactionStatus : String
  Amount : ℚ
  BalanceBefore : ℚ
  BalanceAfter : ℚ
  Currency : String
  Description : Option String
  ExternalReference : Option String
  PaymentMethod : Option String
  Metadata : Option String
  IsAccessibleFromExternal : Bool
  CreatedAt : GoTime
  UpdatedAt : GoTime
deriving DecidableEq, Repr

/-- entities/transaction.go, IsValid: the record validator.
UserID > 0, AccountID nonempty, TransactionID nonempty,
TransactionType nonempty, Amount > 0. -/
def Transaction.IsValid (t : Transaction) : Bool :=
  decide (t.UserID > 0) &&
    !(t.AccountID == "") &&
    !(t.TransactionID == "") &&
    !(t.TransactionType == "") &&
    decide (t.Amount > 0)

/-- A decoded JSON array member as Go encoding/json delivers it inside
a []interface value: numbers arrive as float64, everything else is a
non-numeric member. -/
inductive JsonVal where
  | num (q : ℚ)
  | str (s : String)
  | boolean (b : Bool)
  | nullV
deriving DecidableEq, Repr

/-- The Go type assertion v.(float64): yields the number, or fails
(panicking at the call site) on any non-numeric member. -/
def asFloat : JsonVal → Option ℚ
  | .num q => some q
  | _ => none

/-- Result of parseTimestamp: a successful time, the error return used for
short arrays, or a run-time panic from a failed type assertion. -/
inductive TsResult where
  | ok (t : GoTime)
  | errored (msg : String)
  | panicked
deriving DecidableEq, Repr

/-- Delivery handler, parseTimestamp: arrays shorter than 6 yield the
error return; otherwise the first six members (and the seventh when
present) are type-asserted to float64 — a non-numeric member there is a
panic — and converted with int(...) into time.Date components. -/
def parseTimestamp (timestampArray : List JsonVal) : TsResult :=
  match timestampArray with
  | y :: mo :: d :: h :: mi :: s :: rest =>
    match asFloat y, asFloat mo, asFloat d, asFloat h, asFloat mi, asFloat s with
    | some yv, some mov, some dv, some hv, some miv, some sv =>
      match rest with
      | [] =>
        .ok ⟨goTruncate yv, goTruncate mov, goTruncate dv,
          goTruncate hv, goTruncate miv, goTruncate sv, 0⟩
      | n :: _ =>
        match asFloat n with
        | some nv =>
          .ok ⟨goTruncate yv, goTruncate mov, goTruncate dv,
            goTruncate hv, goTruncate miv, goTruncate sv, goTruncate nv⟩
        | none => .panicked
    | _, _, _, _, _, _ => .panicked
  | _ => .errored "invalid timestamp array length"

/-- Delivery handler: the incoming Kafka message structure
(KafkaTransactionMessage), timestamps still raw component arrays. -/
structure KafkaTransactionMessage where
  ID : String
  UserID : Int
  AccountID : String
  TransactionID : String
  TransactionType : String
  TransactionStatus : String
  Amount : ℚ
  BalanceBefore : ℚ
  BalanceAfter : ℚ
  Currency : String
  Description : String
  ExternalReference : Option String
  PaymentMethod : String
  Metadata : Option String
  IsAccessibleFromExternal : Bool
  CreatedAt : List JsonVal
  UpdatedAt : List JsonVal
deriving DecidableEq, Repr

/-- The fallback in kafkaMessageToEntity around each parseTimestamp call:
an error return is replaced by the current time with a warning logged,
success passes through, and a panic propagates (none). -/
def timestampOrNow (now : GoTime) (r : TsResult) (warnMsg : String) :
    Option (GoTime × List LogEvent) :=
  match r with
  | .ok t => some (t, [])
  | .errored _ => some (now, [⟨.warn, warnMsg⟩])
  | .panicked => none

/-- Delivery handler, kafkaMessageToEntity: the event translator.
Parses both timestamps with the current-time fallback, divides the raw
amount by 100, copies the remaining fields, and sets the optional
description and payment method only when the wire strings are nonempty.
The result is none exactly when a type-assertion panic escapes. -/
def kafkaMessageToEntity (now : GoTime) (msg : KafkaTransactionMessage) :
    Option (Transaction × List LogEvent) :=
  match timestampOrNow now (parseTimestamp msg.CreatedAt)
      "Failed to parse createdAt, using current time" with
  | none => none
  | some (createdAt, logsCreated) =>
    match timestampOrNow now (parseTimestamp msg.UpdatedAt)
        "Failed to parse updatedAt, using current time" with
    | none => none
    | some (updatedAt, logsUpdated) =>
      let amount := msg.Amount / 100
      let transaction : Transaction :=
        { ID := msg.ID
          UserID := msg.UserID
          AccountID := msg.AccountID
          TransactionID := msg.TransactionID
          TransactionType := msg.TransactionType
          TransactionStatus := msg.TransactionStatus
          Amount := amount
          BalanceBefore := msg.BalanceBefore
          BalanceAfter := msg.BalanceAfter
          Currency := msg.Currency
          Description := none
          ExternalReference := msg.ExternalReference
          PaymentMethod := none
          Metadata := msg.Metadata
          IsAccessibleFromExternal := msg.IsAccessibleFromExternal
          CreatedAt := createdAt
          UpdatedAt := updatedAt }
      let transaction :=
        if !(msg.Description == "") then
          { transaction with Description := some msg.Description }
        else transaction
      let transaction :=
        if !(msg.PaymentMethod == "") then
          { transaction with PaymentMethod := some msg.PaymentMethod }
        else transaction
      some (transaction, logsCreated ++ logsUpdated)

/-- Postgres repository: the database model (TransactionModel). -/
structure TransactionModel where
  ID : String
  UserID : Int
  AccountID : String
  TransactionID : String
  TransactionType : String
  TransactionStatus : String
  Amount : ℚ
  BalanceBefore : ℚ
  BalanceAfter : ℚ
  Currency : String
  Description : Option String
  ExternalReference : Option String
  PaymentMethod : Option String
  Metadata : Option String
  IsAccessibleFromExternal : Bool
  CreatedAt : GoTime
  UpdatedAt : GoTime
deriving DecidableEq, Repr

/-- Postgres repository, entityToModel: field-for-field copy of the
entity into the database model, with the payment method pointer copied
only when present. -/
def entityToModel (transaction : Transaction) : TransactionModel :=
  let model : TransactionModel :=
    { ID := transaction.ID
      UserID := transaction.UserID
      AccountID := transaction.AccountID
      TransactionID := transaction.TransactionID
      TransactionType := transaction.TransactionType
      TransactionStatus := transaction.TransactionStatus
      Amount := transaction.Amount
      BalanceBefore := transaction.BalanceBefore
      BalanceAfter := transaction.BalanceAfter
      Currency := transaction.Currency
      Description := transaction.Description
      ExternalReference := transaction.ExternalReference
      PaymentMethod := none
      Metadata := transaction.Metadata
      IsAccessibleFromExternal := transaction.IsAccessibleFromExternal
      CreatedAt := transaction.CreatedAt
      UpdatedAt := transaction.UpdatedAt }
  match transaction.PaymentMethod with
  | some paymentMethod => { model with PaymentMethod := some paymentMethod }
  | none => model

/-- Kinds of create-call failure the storage engine can report; the
unique-constraint violation is kept distinguishable from other errors. -/
inductive CreateErr where
  | uniqueViolation
  | other
deriving DecidableEq, Repr

/-- The storage collaborator seen through the repository interface: the
persisted rows, scripted faults for the existence check and the create
call, and the id the database generates for the next inserted row
(gen_random_uuid default on the ID column). -/
structure Repo where
  store : List TransactionModel
  existsFault : Bool
  createFault : Option CreateErr
  genId : String
deriving DecidableEq, Repr

/-- Postgres repository, Exists: the row count for a transaction id
(SELECT count(*) WHERE transaction_id = ?). -/
def Repo.countTx (r : Repo) (transactionId : String) : Nat :=
  (r.store.filter (fun m => m.TransactionID == transactionId)).length

/-- Postgres repository, Exists: count > 0, or the scripted storage
error. -/
def Repo.existsTx (r : Repo) (transactionId : String) : Except String Bool :=
  if r.existsFault then .error "database error"
  else .ok (decide (0 < r.countTx transactionId))

/-- The id the database leaves in model.ID after the insert: the
generated uuid when the model arrived with the zero value, else the id
that was supplied (default:gen_random_uuid on the primary key). -/
def dbAssignedId (genId modelId : String) : String :=
  if modelId == "" then genId else modelId

/-- Error message a Postgres unique-constraint violation carries. -/
def uniqueViolationMsg : String :=
  "duplicate key value violates unique constraint"

/-- Postgres repository, Create: build the model from the entity, insert
it (or fail with the scripted error), and on success write the
database-assigned id back into the entity (transaction.ID = model.ID). -/
def Repo.create (r : Repo) (transaction : Transaction) :
    Except String (Repo × Transaction) :=
  match r.createFault with
  | some .uniqueViolation => .error uniqueViolationMsg
  | some .other => .error "database error"
  | none =>
    let model := entityToModel transaction
    let inserted := { model with ID := dbAssignedId r.genId model.ID }
    .ok ({ r with store := r.store ++ [inserted] },
      { transaction with ID := inserted.ID })

/-- Observable result of one ProcessTransaction call: the returned error
(none is the nil return), the diagnostics emitted, the repository state
afterwards, and which repository operations were invoked. -/
structure ProcResult where
  err : Option String
  logs : List LogEvent
  repo : Repo
  existsCalled : Bool
  createCalled : Bool
deriving DecidableEq, Repr

/-- usecases/transaction_usecase.go, ProcessTransaction: validate, check
existence, warn on a FAILED-status record whose balances differ, create.
Info/warn/error messages are the constants from the source. -/
def ProcessTransaction (repo : Repo) (transaction : Transaction) : ProcResult :=
  if !transaction.IsValid then
    { err := some "invalid transaction data", logs := [], repo := repo,
      existsCalled := false, createCalled := false }
  else
    match repo.existsTx transaction.TransactionID with
    | .error e =>
      { err := some ("failed to check transaction existence: " ++ e),
        logs := [⟨.err, "Failed to check transaction existence"⟩],
        repo := repo, existsCalled := true, createCalled := false }
    | .ok true =>
      { err := none,
        logs := [⟨.info, "Transaction already exists, skipping"⟩],
        repo := repo, existsCalled := true, createCalled := false }
    | .ok false =>
      let warnLogs : List LogEvent :=
        if transaction.TransactionStatus == TransactionStatusFailed then
          if !(transaction.BalanceBefore == transaction.BalanceAfter) then
            [⟨.warn, "Failed transaction has balance change"⟩]
          else []
        else []
      match repo.create transaction with
      | .error e =>
        { err := some ("failed to create transaction: " ++ e),
          logs := warnLogs ++ [⟨.err, "Failed to create transaction"⟩],
          repo := repo, existsCalled := true, createCalled := true }
      | .ok (repo', _) =>
        { err := none,
          logs := warnLogs ++ [⟨.info, "Transaction processed successfully"⟩],
          repo := repo', existsCalled := true, createCalled := true }

/-- Spec §4.3: the four outcomes of the Idempotent Writer. -/
inductive Outcome where
  | written
  | skipped
  | rejected
  | failed
deriving DecidableEq, Repr

/-- Spec §4.3 outcome taxonomy read off the observable result: the
terminal validation error is Rejected, any other error is Failed, a nil
return with the duplicate-skip log is Skipped, a nil return otherwise is
Written. -/
def ProcResult.outcome (p : ProcResult) : Outcome :=
  match p.err with
  | some e => if e == "invalid transaction data" then .rejected else .failed
  | none =>
    if p.logs.any (fun l => l.msg == "Transaction already exists, skipping")
    then .skipped else .written

/-- One observable behaviour of the log source at the top of the consumer
loop body: the context is already done when the select runs, an in-flight
FetchMessage is interrupted by cancellation, FetchMessage fails with some
other error, or a message is fetched. -/
inductive FetchEvent where
  | ctxDone
  | canceled
  | fetchErr
  | msg (m : String)
deriving DecidableEq, Repr

/-- Observable trace of one Consume run over a finite script of fetch
events: the messages handed to the handler in order, the messages
committed (acknowledged) in order, and the returned error once the loop
returns (none while the script is exhausted with the loop still
running; some none is the nil return). -/
structure LoopTrace where
  handled : List String
  committed : List String
  logs : List LogEvent
  ret : Option (Option String)
deriving DecidableEq, Repr

/-- consumer.go, Consume: the for/select loop. A ready ctx.Done returns
ctx.Err() (context canceled); a fetch interrupted by cancellation
returns nil; any other fetch error is logged, backed off and retried; a
fetched message is handed to the handler — whose error is only logged —
and then committed. -/
def consume (handler : String → Option String) :
    List FetchEvent → LoopTrace
  | [] => { handled := [], committed := [], logs := [], ret := none }
  | .ctxDone :: _ =>
    { handled := [], committed := [],
      logs := [⟨.info, "Consumer context cancelled, stopping..."⟩],
      ret := some (some "context canceled") }
  | .canceled :: _ =>
    { handled := [], committed := [], logs := [], ret := some none }
  | .fetchErr :: rest =>
    let tail := consume handler rest
    { tail with logs := ⟨.err, "Failed to fetch message"⟩ :: tail.logs }
  | .msg m :: rest =>
    let handlerLogs : List LogEvent :=
      match handler m with
      | some _ => [⟨.err, "Failed to process message"⟩]
      | none => []
    let tail := consume handler rest
    { handled := m :: tail.handled, committed := m :: tail.committed,
      logs := handlerLogs ++ tail.logs, ret := tail.ret }

/-- Specification function for C8: the messages the log source delivers
before the loop terminates, in order. -/
def fetchedBeforeStop : List FetchEvent → List String
  | [] => []
  | .ctxDone :: _ => []
  | .canceled :: _ => []
  | .fetchErr :: rest => fetchedBeforeStop rest
  | .msg m :: rest => m :: fetchedBeforeStop rest

/-! Concrete sample values used to instantiate the theorems. -/

/-- Sample instant (the component tuple used across the source tests). -/
def sampleTime : GoTime := ⟨2024, 1, 15, 10, 30, 45, 0⟩

/-- Another instant, standing for the current wall clock in witnesses. -/
def sampleNow : GoTime := ⟨2025, 6, 1, 12, 0, 0, 0⟩

/-- A valid domain record. -/
def sampleTx : Transaction :=
  { ID := ""
    UserID := 123
    AccountID := "account-123"
    TransactionID := "trans-123"
    TransactionType := TransactionTypeTopup
    TransactionStatus := TransactionStatusSuccess
    Amount := 100
    BalanceBefore := 1000
    BalanceAfter := 1100
    Currency := "IDR"
    Description := none
    ExternalReference := none
    PaymentMethod := none
    Metadata := none
    IsAccessibleFromExternal := true
    CreatedAt := sampleTime
    UpdatedAt := sampleTime }

/-- An invalid record: Amount = 0 violates the amount invariant. -/
def invalidTx : Transaction := { sampleTx with Amount := 0 }

/-- An invalid FAILED-status record whose balances differ
(UserID = 0 violates the user id invariant). -/
def invalidFailedTx : Transaction :=
  { sampleTx with
    UserID := 0
    TransactionStatus := TransactionStatusFailed
    BalanceBefore := 1000
    BalanceAfter := 900 }

/-- A valid FAILED-status record whose balances differ. -/
def failedChangedTx : Transaction :=
  { sampleTx with
    TransactionStatus := TransactionStatusFailed
    BalanceBefore := 1000
    BalanceAfter := 900 }

/-- Fresh storage: no rows, no faults. -/
def emptyRepo : Repo :=
  { store := [], existsFault := false, createFault := none, genId := "row-1" }

/-- Storage whose next create call fails with a unique-constraint
violation. -/
def uniqueViolationRepo : Repo :=
  { emptyRepo with createFault := some CreateErr.uniqueViolation }

/-- A well-formed 6-element timestamp component array. -/
def goodTsArray : List JsonVal :=
  [.num 2024, .num 1, .num 15, .num 10, .num 30, .num 45]

/-- A 6-element timestamp array with a non-numeric member. -/
def badMemberTsArray : List JsonVal :=
  [.num 2024, .str "1", .num 15, .num 10, .num 30, .num 45]

/-- A too-short timestamp array. -/
def shortTsArray : List JsonVal := [.num 2024]

/-- A sample wire message with well-formed timestamps. -/
def sampleMsg : KafkaTransactionMessage :=
  { ID := "ext-1"
    UserID := 123
    AccountID := "account-123"
    TransactionID := "trans-456"
    TransactionType := "TOPUP"
    TransactionStatus := "SUCCESS"
    Amount := 10050
    BalanceBefore := 1000
    BalanceAfter := 1100
    Currency := "IDR"
    Description := "Top up"
    ExternalReference := none
    PaymentMethod := "BANK"
    Metadata := none
    IsAccessibleFromExternal := true
    CreatedAt := goodTsArray
    UpdatedAt := goodTsArray }

/-- The sample message with a non-numeric member inside its createdAt
component array. -/
def badTsMsg : KafkaTransactionMessage :=
  { sampleMsg with CreatedAt := badMemberTsArray }

/-- The sample message with a too-short createdAt component array. -/
def shortTsMsg : KafkaTransactionMessage :=
  { sampleMsg with CreatedAt := shortTsArray }

/-- The sample message with empty optional text fields. -/
def emptyTextMsg : KafkaTransactionMessage :=
  { sampleMsg with Description := "", PaymentMethod := "" }

/-- The domain record the translator produces from sampleMsg. -/
def sampleEntity : Transaction :=
  { ID := "ext-1"
    UserID := 123
    AccountID := "account-123"
    TransactionID := "trans-456"
    TransactionType := "TOPUP"
    TransactionStatus := "SUCCESS"
    Amount := 10050 / 100
    BalanceBefore := 1000
    BalanceAfter := 1100
    Currency := "IDR"
    Description := some "Top up"
    ExternalReference := none
    PaymentMethod := some "BANK"
    Metadata := none
    IsAccessibleFromExternal := true
    CreatedAt := sampleTime
    UpdatedAt := sampleTime }

/-- The domain record the translator produces from emptyTextMsg. -/
def emptyTextEntity : Transaction :=
  { sampleEntity with Description := none, PaymentMethod := none }

/-- The warning diagnostics ProcessTransaction computes before the
create call, as a standalone function of the record. -/
def warnLogsFor (t : Transaction) : List LogEvent :=
  if t.TransactionStatus == TransactionStatusFailed then
    if !(t.BalanceBefore == t.BalanceAfter) then
      [⟨.warn, "Failed transaction has balance change"⟩]
    else []
  else []

/-- The stored row produced by a successful create for entity t. -/
def insertedRow (r : Repo) (t : Transaction) : TransactionModel :=
  { entityToModel t with ID := dbAssignedId r.genId t.ID }

/-- The error string Repo.create reports for each scripted fault. -/
def createErrMsg : CreateErr → String
  | .uniqueViolation => uniqueViolationMsg
  | .other => "database error"

/-! Helper lemmas about the embedded definitions. -/

theorem entityToModel_ID (t : Transaction) : (entityToModel t).ID = t.ID := by
  cases h : t.PaymentMethod <;> simp [entityToModel, h]

theorem entityToModel_TransactionID (t : Transaction) :
    (entityToModel t).TransactionID = t.TransactionID := by
  cases h : t.PaymentMethod <;> simp [entityToModel, h]

theorem repo_create_ok (r : Repo) (t : Transaction) (hcf : r.createFault = none) :
    r.create t = .ok ({ r with store := r.store ++ [insertedRow r t] },
      { t with ID := dbAssignedId r.genId t.ID }) := by
  simp [Repo.create, hcf, insertedRow, entityToModel_ID]

theorem countTx_append (r : Repo) (m : TransactionModel) (txId : String) :
    Repo.countTx { r with store := r.store ++ [m] } txId =
      r.countTx txId + (if m.TransactionID == txId then 1 else 0) := by
  unfold Repo.countTx
  simp only [List.filter_append, List.length_append, List.filter_cons,
    List.filter_nil]
  split <;> simp

/-- The create-path normal form of ProcessTransaction: a valid record,
an honest existence check reporting no prior row, and a successful
create. -/
theorem processTransaction_written (t : Transaction) (r : Repo)
    (hv : t.IsValid = true) (hef : r.existsFault = false)
    (hcount : r.countTx t.TransactionID = 0) (hcf : r.createFault = none) :
    ProcessTransaction r t =
      { err := none
        logs := warnLogsFor t ++
          [⟨.info, "Transaction processed successfully"⟩]
        repo := { r with store := r.store ++ [insertedRow r t] }
        existsCalled := true
        createCalled := true } := by
  unfold ProcessTransaction
  rw [repo_create_ok r t hcf]
  simp [Repo.existsTx, hv, hef, hcount, warnLogsFor]

/-- The duplicate-path normal form of ProcessTransaction: a valid record
whose transaction id already has a row. -/
theorem processTransaction_skipped (t : Transaction) (r : Repo)
    (hv : t.IsValid = true) (hef : r.existsFault = false)
    (hcount : 0 < r.countTx t.TransactionID) :
    ProcessTransaction r t =
      { err := none
        logs := [⟨.info, "Transaction already exists, skipping"⟩]
        repo := r
        existsCalled := true
        createCalled := false } := by
  unfold ProcessTransaction
  simp [Repo.existsTx, hv, hef, hcount]

/-- The invalid-path normal form of ProcessTransaction. -/
theorem processTransaction_invalid (t : Transaction) (r : Repo)
    (hv : t.IsValid = false) :
    ProcessTransaction r t =
      { err := some "invalid transaction data"
        logs := []
        repo := r
        existsCalled := false
        createCalled := false } := by
  unfold ProcessTransaction
  rw [hv]
  rfl

/-- Outcome classification of a nil return without the skip log. -/
theorem outcome_written_of (p : ProcResult) (h : p.err = none)
    (h2 : (p.logs.any
      (fun l => l.msg == "Transaction already exists, skipping")) = false) :
    p.outcome = Outcome.written := by
  unfold ProcResult.outcome
  rw [h, h2]
  rfl

/-- Outcome classification of a nil return with the skip log. -/
theorem outcome_skipped_of (p : ProcResult) (h : p.err = none)
    (h2 : (p.logs.any
      (fun l => l.msg == "Transaction already exists, skipping")) = true) :
    p.outcome = Outcome.skipped := by
  unfold ProcResult.outcome
  rw [h, h2]
  rfl

/-- The skip-duplicate info message never appears among the create-path
logs, so the create path classifies as Written. -/
theorem written_logs_no_skip (t : Transaction) :
    (((warnLogsFor t ++
      [(⟨.info, "Transaction processed successfully"⟩ : LogEvent)]).any
        (fun l => l.msg == "Transaction already exists, skipping")) = false) := by
  unfold warnLogsFor
  split
  · split <;> decide
  · decide

/-- Outcome classification of an error return. -/
theorem outcome_failed_of (p : ProcResult) (e : String) (h : p.err = some e)
    (hne : (e == "invalid transaction data") = false) :
    p.outcome = Outcome.failed := by
  unfold ProcResult.outcome
  rw [h]
  simp [hne]

/-- The create-error normal form of ProcessTransaction: a valid record,
an honest existence check reporting no prior row, and a failing create. -/
theorem processTransaction_createFailed (t : Transaction) (r : Repo)
    (ce : CreateErr) (hv : t.IsValid = true) (hef : r.existsFault = false)
    (hcount : r.countTx t.TransactionID = 0)
    (hcf : r.createFault = some ce) :
    ProcessTransaction r t =
      { err := some ("failed to create transaction: " ++ createErrMsg ce)
        logs := warnLogsFor t ++ [⟨.err, "Failed to create transaction"⟩]
        repo := r
        existsCalled := true
        createCalled := true } := by
  have hc : r.create t = .error (createErrMsg ce) := by
    cases ce <;> simp [Repo.create, hcf, createErrMsg]
  unfold ProcessTransaction
  rw [hc]
  simp [Repo.existsTx, hv, hef, hcount, warnLogsFor]

/-- The warning diagnostics reduce to the single warning for a FAILED
record whose balances differ. -/
theorem warnLogsFor_failed_changed (t : Transaction)
    (hst : t.TransactionStatus = TransactionStatusFailed)
    (hbal : t.BalanceBefore ≠ t.BalanceAfter) :
    warnLogsFor t = [⟨.warn, "Failed transaction has balance change"⟩] := by
  unfold warnLogsFor
  rw [hst]
  simp [hbal]

/-! Claim theorems. -/

/-- Claim C2: a record failing any §3 invariant is Rejected with the
terminal invalid-transaction-data error, the repository existence check
and create are never invoked, and storage is unchanged. -/
theorem C2_invalid_rejected_storage_unchanged (t : Transaction) (r : Repo)
    (hv : t.IsValid = false) :
    (ProcessTransaction r t).outcome = Outcome.rejected ∧
    (ProcessTransaction r t).err = some "invalid transaction data" ∧
    (ProcessTransaction r t).existsCalled = false ∧
    (ProcessTransaction r t).createCalled = false ∧
    (ProcessTransaction r t).repo = r := by
  have h := processTransaction_invalid t r hv
  refine ⟨?_, ?_, ?_, ?_, ?_⟩ <;> rw [h]
  rfl

/-- Claim C2 witness: the sample record with Amount = 0 is rejected and
leaves the fresh store untouched. -/
theorem C2_witness :
    invalidTx.IsValid = false ∧
    ((ProcessTransaction emptyRepo invalidTx).outcome = Outcome.rejected ∧
      (ProcessTransaction emptyRepo invalidTx).err =
        some "invalid transaction data" ∧
      (ProcessTransaction emptyRepo invalidTx).existsCalled = false ∧
      (ProcessTransaction emptyRepo invalidTx).createCalled = false ∧
      (ProcessTransaction emptyRepo invalidTx).repo = emptyRepo) :=
  ⟨by decide, C2_invalid_rejected_storage_unchanged invalidTx emptyRepo (by decide)⟩

/-- Claim C1: with an honest fault-free store holding no row for the
transaction id, processing a valid record and then a second valid record
with the same transaction id yields Written then Skipped, the second
call never invokes create, and storage ends with exactly one row for
that transaction id. -/
theorem C1_process_twice_written_then_skipped
    (t t2 : Transaction) (r : Repo)
    (hv : t.IsValid = true) (hv2 : t2.IsValid = true)
    (hid : t2.TransactionID = t.TransactionID)
    (hef : r.existsFault = false) (hcf : r.createFault = none)
    (hcount : r.countTx t.TransactionID = 0) :
    (ProcessTransaction r t).outcome = Outcome.written ∧
    (ProcessTransaction (ProcessTransaction r t).repo t2).outcome =
      Outcome.skipped ∧
    (ProcessTransaction (ProcessTransaction r t).repo t2).createCalled =
      false ∧
    (ProcessTransaction (ProcessTransaction r t).repo t2).repo.countTx
      t.TransactionID = 1 := by
  have h1 := processTransaction_written t r hv hef hcount hcf
  have hrepo1 : (ProcessTransaction r t).repo =
      { r with store := r.store ++ [insertedRow r t] } := by rw [h1]
  have hcount1 : Repo.countTx { r with store := r.store ++ [insertedRow r t] }
      t.TransactionID = 1 := by
    rw [countTx_append, hcount]
    simp [insertedRow, entityToModel_TransactionID]
  have h2 := processTransaction_skipped t2
    { r with store := r.store ++ [insertedRow r t] }
    hv2 (by exact hef) (by rw [hid, hcount1]; norm_num)
  refine ⟨?_, ?_, ?_, ?_⟩
  · exact outcome_written_of _ (by rw [h1]) (by rw [h1]; exact written_logs_no_skip t)
  · exact outcome_skipped_of _ (by rw [hrepo1, h2]) (by rw [hrepo1, h2]; rfl)
  · rw [hrepo1, h2]
  · rw [hrepo1, h2]
    exact hcount1

/-- Claim C1 witness: processing the sample record twice against fresh
storage. -/
theorem C1_witness :
    sampleTx.IsValid = true ∧
    emptyRepo.existsFault = false ∧
    emptyRepo.createFault = none ∧
    emptyRepo.countTx sampleTx.TransactionID = 0 ∧
    ((ProcessTransaction emptyRepo sampleTx).outcome = Outcome.written ∧
      (ProcessTransaction (ProcessTransaction emptyRepo sampleTx).repo
        sampleTx).outcome = Outcome.skipped ∧
      (ProcessTransaction (ProcessTransaction emptyRepo sampleTx).repo
        sampleTx).createCalled = false ∧
      (ProcessTransaction (ProcessTransaction emptyRepo sampleTx).repo
        sampleTx).repo.countTx sampleTx.TransactionID = 1) :=
  ⟨by decide, rfl, rfl, by decide,
    C1_process_twice_written_then_skipped sampleTx sampleTx emptyRepo
      (by decide) (by decide) rfl rfl rfl (by decide)⟩

/-- Claim C3 counterexample: when create fails with the unique-constraint
violation, ProcessTransaction returns a non-nil error and classifies as
Failed, not as the non-error Skipped outcome the claim asserts. -/
theorem C3_counterexample :
    (ProcessTransaction uniqueViolationRepo sampleTx).outcome =
      Outcome.failed ∧
    (ProcessTransaction uniqueViolationRepo sampleTx).outcome ≠
      Outcome.skipped ∧
    (ProcessTransaction uniqueViolationRepo sampleTx).err ≠ none := by
  decide

/-- Claim C3 amended: a unique-constraint violation on create is returned
as a wrapped error — the Failed outcome — exactly like any other create
failure; the use case never special-cases it as Skipped. -/
theorem C3_amended_unique_violation_is_failed (t : Transaction) (r : Repo)
    (hv : t.IsValid = true) (hef : r.existsFault = false)
    (hcount : r.countTx t.TransactionID = 0)
    (hcf : r.createFault = some CreateErr.uniqueViolation) :
    (ProcessTransaction r t).outcome = Outcome.failed ∧
    (ProcessTransaction r t).err =
      some ("failed to create transaction: " ++ uniqueViolationMsg) ∧
    (ProcessTransaction r t).repo = r := by
  have h := processTransaction_createFailed t r CreateErr.uniqueViolation
    hv hef hcount hcf
  refine ⟨?_, ?_, ?_⟩
  · exact outcome_failed_of _ _ (by rw [h]) (by decide)
  · rw [h]
    rfl
  · rw [h]

/-- Claim C3 amended witness: the sample record against storage whose
create call reports a unique-constraint violation. -/
theorem C3_witness :
    sampleTx.IsValid = true ∧
    uniqueViolationRepo.existsFault = false ∧
    uniqueViolationRepo.countTx sampleTx.TransactionID = 0 ∧
    uniqueViolationRepo.createFault = some CreateErr.uniqueViolation ∧
    ((ProcessTransaction uniqueViolationRepo sampleTx).outcome =
        Outcome.failed ∧
      (ProcessTransaction uniqueViolationRepo sampleTx).err =
        some ("failed to create transaction: " ++ uniqueViolationMsg) ∧
      (ProcessTransaction uniqueViolationRepo sampleTx).repo =
        uniqueViolationRepo) :=
  ⟨by decide, rfl, by decide, rfl,
    C3_amended_unique_violation_is_failed sampleTx uniqueViolationRepo
      (by decide) rfl (by decide) rfl⟩

/-- Claim C7 counterexample: an invalid FAILED-status record whose
balances differ is rejected with no diagnostics at all — no warning is
emitted, refuting the claim for every record. -/
theorem C7_counterexample :
    invalidFailedTx.TransactionStatus = TransactionStatusFailed ∧
    invalidFailedTx.BalanceBefore ≠ invalidFailedTx.BalanceAfter ∧
    (ProcessTransaction emptyRepo invalidFailedTx).logs = [] ∧
    (ProcessTransaction emptyRepo invalidFailedTx).outcome =
      Outcome.rejected := by
  decide

/-- Claim C7 amended: for a valid FAILED-status record with differing
balances that passes the existence check as new, ProcessTransaction
emits the warning diagnostic; and the returned error, the outcome, the
create decision and the stored transaction ids are exactly those for the
same record with the balance discrepancy removed. -/
theorem C7_amended_warning_additive (t : Transaction) (r : Repo)
    (hv : t.IsValid = true) (hef : r.existsFault = false)
    (hcount : r.countTx t.TransactionID = 0)
    (hst : t.TransactionStatus = TransactionStatusFailed)
    (hbal : t.BalanceBefore ≠ t.BalanceAfter) :
    (⟨.warn, "Failed transaction has balance change"⟩ : LogEvent) ∈
      (ProcessTransaction r t).logs ∧
    (ProcessTransaction r t).outcome =
      (ProcessTransaction r
        { t with BalanceAfter := t.BalanceBefore }).outcome ∧
    (ProcessTransaction r t).err =
      (ProcessTransaction r
        { t with BalanceAfter := t.BalanceBefore }).err ∧
    (ProcessTransaction r t).createCalled =
      (ProcessTransaction r
        { t with BalanceAfter := t.BalanceBefore }).createCalled ∧
    (ProcessTransaction r t).repo.store.map (fun m => m.TransactionID) =
      (ProcessTransaction r
        { t with BalanceAfter := t.BalanceBefore }).repo.store.map
          (fun m => m.TransactionID) := by
  have hv2 : Transaction.IsValid
      { t with BalanceAfter := t.BalanceBefore } = true := hv
  have hcount2 : r.countTx
      (Transaction.TransactionID
        { t with BalanceAfter := t.BalanceBefore }) = 0 := hcount
  have hwarn := warnLogsFor_failed_changed t hst hbal
  cases hc : r.createFault with
  | none =>
    have h1 := processTransaction_written t r hv hef hcount hc
    have h2 := processTransaction_written
      { t with BalanceAfter := t.BalanceBefore } r hv2 hef hcount2 hc
    refine ⟨?_, ?_, ?_, ?_, ?_⟩
    · rw [h1]
      simp [hwarn]
    · rw [outcome_written_of _ (by rw [h1])
        (by rw [h1]; exact written_logs_no_skip t),
        outcome_written_of _ (by rw [h2])
        (by rw [h2]; exact written_logs_no_skip _)]
    · rw [h1, h2]
    · rw [h1, h2]
    · rw [h1, h2]
      simp [insertedRow, entityToModel_TransactionID]
  | some ce =>
    have h1 := processTransaction_createFailed t r ce hv hef hcount hc
    have h2 := processTransaction_createFailed
      { t with BalanceAfter := t.BalanceBefore } r ce hv2 hef hcount2 hc
    refine ⟨?_, ?_, ?_, ?_, ?_⟩
    · rw [h1]
      simp [hwarn]
    · rw [outcome_failed_of _ _ (by rw [h1])
        (by cases ce <;> decide),
        outcome_failed_of _ _ (by rw [h2])
        (by cases ce <;> decide)]
    · rw [h1, h2]
    · rw [h1, h2]
    · rw [h1, h2]

/-- Claim C7 amended witness: the valid FAILED-status sample record with
changed balances, against fresh storage. -/
theorem C7_witness :
    failedChangedTx.IsValid = true ∧
    emptyRepo.existsFault = false ∧
    emptyRepo.countTx failedChangedTx.TransactionID = 0 ∧
    failedChangedTx.TransactionStatus = TransactionStatusFailed ∧
    failedChangedTx.BalanceBefore ≠ failedChangedTx.BalanceAfter ∧
    ((⟨.warn, "Failed transaction has balance change"⟩ : LogEvent) ∈
      (ProcessTransaction emptyRepo failedChangedTx).logs ∧
      (ProcessTransaction emptyRepo failedChangedTx).outcome =
        (ProcessTransaction emptyRepo
          { failedChangedTx with
            BalanceAfter := failedChangedTx.BalanceBefore }).outcome ∧
      (ProcessTransaction emptyRepo failedChangedTx).err =
        (ProcessTransaction emptyRepo
          { failedChangedTx with
            BalanceAfter := failedChangedTx.BalanceBefore }).err ∧
      (ProcessTransaction emptyRepo failedChangedTx).createCalled =
        (ProcessTransaction emptyRepo
          { failedChangedTx with
            BalanceAfter := failedChangedTx.BalanceBefore }).createCalled ∧
      (ProcessTransaction emptyRepo failedChangedTx).repo.store.map
          (fun m => m.TransactionID) =
        (ProcessTransaction emptyRepo
          { failedChangedTx with
            BalanceAfter := failedChangedTx.BalanceBefore }).repo.store.map
          (fun m => m.TransactionID)) :=
  ⟨by decide, rfl, by decide, rfl, by decide,
    C7_amended_warning_additive failedChangedTx emptyRepo
      (by decide) rfl (by decide) rfl (by decide)⟩

/-- Claim C10: a successful repository create returns the input record
with only its ID field overwritten — by the id the database left in the
inserted row — and appends exactly that row to storage. -/
theorem C10_create_overwrites_only_id (t : Transaction) (r : Repo)
    (r2 : Repo) (t2 : Transaction)
    (hcf : r.createFault = none) (h : r.create t = .ok (r2, t2)) :
    t2 = { t with ID := dbAssignedId r.genId t.ID } ∧
    r2.store = r.store ++ [insertedRow r t] ∧
    t2.ID = (insertedRow r t).ID := by
  rw [repo_create_ok r t hcf] at h
  simp only [Except.ok.injEq, Prod.mk.injEq] at h
  obtain ⟨hr, ht⟩ := h
  subst hr
  subst ht
  exact ⟨rfl, rfl, rfl⟩

/-- Claim C10 witness: creating the sample record (blank ID) against
fresh storage assigns the generated row id. -/
theorem C10_witness :
    emptyRepo.createFault = none ∧
    emptyRepo.create sampleTx =
      Except.ok ({ emptyRepo with store := [insertedRow emptyRepo sampleTx] },
        { sampleTx with ID := "row-1" }) ∧
    ({ sampleTx with ID := "row-1" } =
        { sampleTx with ID := dbAssignedId emptyRepo.genId sampleTx.ID } ∧
      ({ emptyRepo with
          store := [insertedRow emptyRepo sampleTx] } : Repo).store =
        emptyRepo.store ++ [insertedRow emptyRepo sampleTx] ∧
      Transaction.ID { sampleTx with ID := "row-1" } =
        (insertedRow emptyRepo sampleTx).ID) :=
  ⟨rfl, rfl,
    C10_create_overwrites_only_id sampleTx emptyRepo
      { emptyRepo with store := [insertedRow emptyRepo sampleTx] }
      { sampleTx with ID := "row-1" } rfl rfl⟩

/-- Claim C4: the translator survives a too-short timestamp array by
substituting the current instant with a warning — but a 6-element array
containing a non-numeric member makes the float64 type assertion inside
parseTimestamp fail, which is a run-time panic: translation aborts and
no record is produced, contrary to the documented graceful degradation. -/
theorem C4_nonnumeric_member_panics :
    parseTimestamp badMemberTsArray = TsResult.panicked ∧
    kafkaMessageToEntity sampleNow badTsMsg = none ∧
    ((kafkaMessageToEntity sampleNow shortTsMsg).map
      (fun p => p.1.CreatedAt)) = some sampleNow ∧
    ((kafkaMessageToEntity sampleNow shortTsMsg).map (fun p => p.2)) =
      some [⟨.warn, "Failed to parse createdAt, using current time"⟩] :=
  ⟨rfl, rfl, rfl, rfl⟩

/-- Claim C5: whenever translation produces a record (no panic escapes),
its amount is the raw minor-unit amount divided by exactly 100. -/
theorem C5_amount_divided_by_100 (now : GoTime)
    (msg : KafkaTransactionMessage) (t : Transaction)
    (logs : List LogEvent)
    (h : kafkaMessageToEntity now msg = some (t, logs)) :
    t.Amount = msg.Amount / 100 := by
  unfold kafkaMessageToEntity at h
  split at h
  · exact Option.noConfusion h
  · split at h
    · exact Option.noConfusion h
    · simp only [Option.some.injEq, Prod.mk.injEq] at h
      obtain ⟨ht, hl⟩ := h
      subst ht
      split <;> split <;> rfl

/-- Claim C5 witness: the sample message with raw amount 10050 translates
to an entity with amount 10050 / 100. -/
theorem C5_witness :
    kafkaMessageToEntity sampleNow sampleMsg = some (sampleEntity, []) ∧
    sampleEntity.Amount = sampleMsg.Amount / 100 :=
  ⟨rfl, C5_amount_divided_by_100 sampleNow sampleMsg sampleEntity [] rfl⟩

/-- Claim C6: whenever translation produces a record, an empty wire
description or payment method becomes an absent field, and a nonempty
one is carried over as present. -/
theorem C6_empty_optional_text_absent (now : GoTime)
    (msg : KafkaTransactionMessage) (t : Transaction)
    (logs : List LogEvent)
    (h : kafkaMessageToEntity now msg = some (t, logs)) :
    (msg.Description = "" → t.Description = none) ∧
    (msg.Description ≠ "" → t.Description = some msg.Description) ∧
    (msg.PaymentMethod = "" → t.PaymentMethod = none) ∧
    (msg.PaymentMethod ≠ "" → t.PaymentMethod = some msg.PaymentMethod) := by
  unfold kafkaMessageToEntity at h
  split at h
  · exact Option.noConfusion h
  · split at h
    · exact Option.noConfusion h
    · simp only [Option.some.injEq, Prod.mk.injEq] at h
      obtain ⟨ht, hl⟩ := h
      subst ht
      refine ⟨?_, ?_, ?_, ?_⟩ <;> intro hcond <;> split <;> split <;>
        simp_all

/-- Claim C6 witness: the sample message with blank description and
payment method translates to absent fields. -/
theorem C6_witness :
    kafkaMessageToEntity sampleNow emptyTextMsg =
      some (emptyTextEntity, []) ∧
    ((emptyTextMsg.Description = "" → emptyTextEntity.Description = none) ∧
      (emptyTextMsg.Description ≠ "" →
        emptyTextEntity.Description = some emptyTextMsg.Description) ∧
      (emptyTextMsg.PaymentMethod = "" →
        emptyTextEntity.PaymentMethod = none) ∧
      (emptyTextMsg.PaymentMethod ≠ "" →
        emptyTextEntity.PaymentMethod = some emptyTextMsg.PaymentMethod)) :=
  ⟨rfl, C6_empty_optional_text_absent sampleNow emptyTextMsg
    emptyTextEntity [] rfl⟩

/-- Claim C8: every message the loop fetches is handed to the handler
once and committed (acknowledged) exactly once, in order, whatever the
handler returns — the committed sequence is the fetched sequence for
every handler, so no message is ever re-processed because its handler
failed. -/
theorem C8_fetched_messages_committed_once
    (handler : String → Option String) (events : List FetchEvent) :
    (consume handler events).committed = fetchedBeforeStop events ∧
    (consume handler events).handled = fetchedBeforeStop events := by
  induction events with
  | nil => exact ⟨rfl, rfl⟩
  | cons e rest ih =>
    cases e with
    | ctxDone => exact ⟨rfl, rfl⟩
    | canceled => exact ⟨rfl, rfl⟩
    | fetchErr =>
      simpa only [consume, fetchedBeforeStop] using ih
    | msg m =>
      obtain ⟨h1, h2⟩ := ih
      exact ⟨by simp only [consume, fetchedBeforeStop, h1],
        by simp only [consume, fetchedBeforeStop, h2]⟩

/-- Claim C9 counterexample: when the loop observes cancellation at the
top of its select, Consume returns ctx.Err() — a non-nil error — not the
nil return the claim asserts for every cancellation-caused exit. -/
theorem C9_counterexample :
    (consume (fun _ => none) [FetchEvent.ctxDone]).ret =
      some (some "context canceled") ∧
    (consume (fun _ => none) [FetchEvent.ctxDone]).ret ≠ some none := by
  decide

/-- Claim C9 amended: on cancellation the loop stops fetching and
handling; a cancellation that interrupts an in-flight fetch makes
Consume return nil, while cancellation observed at the top of the loop
makes it return the context error (context canceled). -/
theorem C9_amended_cancellation_return (handler : String → Option String)
    (rest : List FetchEvent) :
    (consume handler (FetchEvent.canceled :: rest)).ret = some none ∧
    (consume handler (FetchEvent.canceled :: rest)).handled = [] ∧
    (consume handler (FetchEvent.canceled :: rest)).committed = [] ∧
    (consume handler (FetchEvent.ctxDone :: rest)).ret =
      some (some "context canceled") ∧
    (consume handler (FetchEvent.ctxDone :: rest)).handled = [] ∧
    (consume handler (FetchEvent.ctxDone :: rest)).committed = [] :=
  ⟨rfl, rfl, rfl, rfl, rfl, rfl⟩

end TxConsumer
